import Mathlib

/- Verification of the late-init crate (src/lib.rs): two deferred
initialization cells, LateInitUnchecked (MaybeUninit storage, no presence
tracking) and LateInit (Option storage with a presence tag and debug
assertions).

Embedding conventions:
  - The storage of either cell is modelled as an Option value: some v means
    the slot holds the value v, none means the bytes are uninitialized
    (unchecked cell) or the Option tag is None (checked cell).
  - The build mode is a Bool parameter d: true means debug assertions are
    compiled in, false means a release build where debug_assert is a no-op
    and unreachable_unchecked is undefined behavior.
  - Operations that can panic or hit undefined behavior return an Outcome:
    ok a for a normal return, assertFail when a debug assertion fires, ub
    when release-mode execution reaches unreachable_unchecked or otherwise
    enters undefined behavior.
  - Drop semantics are made explicit: an initializing write returns, next
    to the new cell state, the list of previously stored values whose Drop
    glue runs during the operation. Assignment through a mutable Option
    reference drops the old contents; ptr::write does not. A value that is
    overwritten but never appears in such a list leaks.
  - Raw pointers are modelled by RawPtr: null, or toStorage c where c
    records the contents currently held at the pointed-to storage.
  - Rust functions taking a value via the Into trait are modelled by an
    explicit conversion function argument; the plain T entry point applies
    it at the identity conversion, matching Into of T for T. -/

/-- Result of running a fallible cell operation in a given build mode. -/
inductive Outcome (A : Type) where
  | ok (a : A)
  | assertFail
  | ub
  deriving DecidableEq

/-- Raw pointer as observed by callers: the null sentinel, or the address
of the storage region together with its current contents. -/
inductive RawPtr (T : Type) where
  | null
  | toStorage (contents : Option T)
  deriving DecidableEq

/-- Embedding of LateInitUnchecked of T: UnsafeCell of MaybeUninit of T.
The field inner is some v when the storage holds v, none when it was never
written (reading it then is undefined behavior). -/
structure LateInitUnchecked (T : Type) where
  inner : Option T
  deriving DecidableEq

namespace LateInitUnchecked

/-- Embedding of LateInitUnchecked::new: uninitialized storage. -/
def new {T : Type} : LateInitUnchecked T :=
  { inner := none }

/-- Embedding of LateInitUnchecked::with: storage already holding value. -/
def with_ {T : Type} (value : T) : LateInitUnchecked T :=
  { inner := some value }

/-- Embedding of unsafe fn late_init with an explicit Into conversion.
It performs ptr::write of value.into() into the storage: the cell ends up
holding the converted value and no previous value is dropped (the second
component, the list of dropped values, is always empty: a previous
occupant leaks). -/
def late_init_into {T I : Type} (_self : LateInitUnchecked T) (into : I → T)
    (value : I) : LateInitUnchecked T × List T :=
  ({ inner := some (into value) }, [])

/-- Embedding of unsafe fn late_init at the identity Into instance. -/
def late_init {T : Type} (self : LateInitUnchecked T) (value : T) :
    LateInitUnchecked T × List T :=
  self.late_init_into id value

/-- Embedding of late_init_mut, which simply calls late_init. -/
def late_init_mut {T : Type} (self : LateInitUnchecked T) (value : T) :
    LateInitUnchecked T × List T :=
  self.late_init value

/-- Embedding of late_ptr: a pointer into the storage region, valid as an
address even before initialization. -/
def late_ptr {T : Type} (self : LateInitUnchecked T) : RawPtr T :=
  RawPtr.toStorage self.inner

/-- Embedding of late_ptr_mut: the same address, as a mutable pointer. -/
def late_ptr_mut {T : Type} (self : LateInitUnchecked T) : RawPtr T :=
  RawPtr.toStorage self.inner

/-- Embedding of late_get_ref, which dereferences late_ptr: some v when the
storage holds v, none encoding the undefined behavior of creating a
reference to uninitialized storage. -/
def late_get_ref {T : Type} (self : LateInitUnchecked T) : Option T :=
  match self.late_ptr with
  | RawPtr.toStorage c => c
  | RawPtr.null => none

/-- Embedding of late_get_mut viewed as a read through the returned mutable
reference. -/
def late_get_mut {T : Type} (self : LateInitUnchecked T) : Option T :=
  match self.late_ptr_mut with
  | RawPtr.toStorage c => c
  | RawPtr.null => none

/-- Embedding of obtaining late_get_mut and storing w through the returned
mutable reference: some of the updated cell on an initialized cell, none
encoding the undefined behavior of forming the reference on an
uninitialized one. -/
def late_get_mut_write {T : Type} (self : LateInitUnchecked T) (w : T) :
    Option (LateInitUnchecked T) :=
  match self.inner with
  | some _ => some { inner := some w }
  | none => none

/-- Embedding of the Deref impl, which calls late_get_ref. -/
def deref {T : Type} (self : LateInitUnchecked T) : Option T :=
  self.late_get_ref

/-- Embedding of the DerefMut impl, which calls late_get_mut. -/
def derefMut {T : Type} (self : LateInitUnchecked T) : Option T :=
  self.late_get_mut

end LateInitUnchecked

/-- Embedding of LateInit of T: UnsafeCell of Option of T. The field inner
is the Option container itself, so the presence tag and the storage are
recorded together, exactly as in the source. -/
structure LateInit (T : Type) where
  inner : Option T
  deriving DecidableEq

namespace LateInit

/-- Embedding of LateInit::new: the Option container starts as None. -/
def new {T : Type} : LateInit T :=
  { inner := none }

/-- Embedding of LateInit::with: the Option container starts as Some value. -/
def with_ {T : Type} (value : T) : LateInit T :=
  { inner := some value }

/-- Embedding of the private late_inner accessor: a shared view of the
Option container. -/
def late_inner {T : Type} (self : LateInit T) : Option T :=
  self.inner

/-- Embedding of the private unsafe late_inner_mut accessor: the same
container, viewed mutably. -/
def late_inner_mut {T : Type} (self : LateInit T) : Option T :=
  self.inner

/-- Embedding of the private late_unexpected function, which runs
debug_assert of false and then core::hint::unreachable_unchecked: in a
debug build the assertion fires, in a release build execution reaches
undefined behavior. It never produces an ok outcome. -/
def late_unexpected (T : Type) (d : Bool) : Outcome T :=
  if d then Outcome.assertFail else Outcome.ub

/-- Embedding of unsafe fn late_init with an explicit Into conversion, in
build mode d. The source reads the container mutably, runs debug_assert
that it is None, then assigns Some of value.into() to it. When the
container was None the write succeeds and nothing is dropped. When it was
Some prev, a debug build stops at the failed assertion; a release build
performs the assignment, which drops the previous contents prev of the
Option container before storing the new value. -/
def late_init_into {T I : Type} (d : Bool) (self : LateInit T) (into : I → T)
    (value : I) : Outcome (LateInit T × List T) :=
  match self.late_inner_mut with
  | none => Outcome.ok ({ inner := some (into value) }, [])
  | some prev =>
    if d then Outcome.assertFail
    else Outcome.ok ({ inner := some (into value) }, [prev])

/-- Embedding of unsafe fn late_init at the identity Into instance. -/
def late_init {T : Type} (d : Bool) (self : LateInit T) (value : T) :
    Outcome (LateInit T × List T) :=
  late_init_into d self id value

/-- Embedding of late_init_mut, which simply calls late_init. -/
def late_init_mut {T : Type} (d : Bool) (self : LateInit T) (value : T) :
    Outcome (LateInit T × List T) :=
  late_init d self value

/-- Embedding of late_ptr: late_inner().as_ref() mapped to the address of
the contained value, with ptr::null() as the fallback. -/
def late_ptr {T : Type} (self : LateInit T) : RawPtr T :=
  (self.late_inner.map (fun inner => RawPtr.toStorage (some inner))).getD
    RawPtr.null

/-- Embedding of late_ptr_mut: late_ptr cast to a mutable pointer. -/
def late_ptr_mut {T : Type} (self : LateInit T) : RawPtr T :=
  self.late_ptr

/-- Embedding of late_try_get_ref: late_inner().as_ref(). -/
def late_try_get_ref {T : Type} (self : LateInit T) : Option T :=
  self.late_inner

/-- Embedding of late_try_get_mut: late_inner_mut().as_mut(), viewed as the
value the returned mutable reference designates. -/
def late_try_get_mut {T : Type} (self : LateInit T) : Option T :=
  self.late_inner_mut

/-- Embedding of obtaining late_try_get_mut and, when it returns Some,
storing w through the returned mutable reference; when it returns None the
caller gets no reference and the cell is unchanged. -/
def late_try_get_mut_write {T : Type} (self : LateInit T) (w : T) :
    LateInit T :=
  match self.late_inner_mut with
  | some _ => { inner := some w }
  | none => self

/-- Embedding of late_get_ref in build mode d: the value behind
late_try_get_ref, or late_unexpected when absent. -/
def late_get_ref {T : Type} (d : Bool) (self : LateInit T) : Outcome T :=
  match self.late_try_get_ref with
  | some inner => Outcome.ok inner
  | none => late_unexpected T d

/-- Embedding of late_get_mut in build mode d, viewed as a read through the
returned mutable reference: the value behind late_try_get_mut, or
late_unexpected when absent. -/
def late_get_mut {T : Type} (d : Bool) (self : LateInit T) : Outcome T :=
  match self.late_try_get_mut with
  | some inner => Outcome.ok inner
  | none => late_unexpected T d

/-- Embedding of obtaining late_get_mut and storing w through the returned
mutable reference, in build mode d: on a present cell the write lands in
the container; on an absent cell control reaches late_unexpected and no
updated cell exists. -/
def late_get_mut_write {T : Type} (d : Bool) (self : LateInit T) (w : T) :
    Outcome (LateInit T) :=
  match self.late_try_get_mut with
  | some _ => Outcome.ok { inner := some w }
  | none => late_unexpected (LateInit T) d

/-- Embedding of the Deref impl, which calls late_get_ref. -/
def deref {T : Type} (d : Bool) (self : LateInit T) : Outcome T :=
  self.late_get_ref d

/-- Embedding of the DerefMut impl, which calls late_get_mut. -/
def derefMut {T : Type} (d : Bool) (self : LateInit T) : Outcome T :=
  self.late_get_mut d

/-- Presence of the checked cell as reported by its probe accessor. -/
def isPresent {T : Type} (self : LateInit T) : Bool :=
  self.late_try_get_ref.isSome

end LateInit

/-- Every operation of the LateInit interface that touches a cell, as a
syntactic label, used to state the state-machine invariant. Write-capable
accessors carry the value written through the obtained reference. -/
inductive LateOp (T : Type) where
  | opInit (v : T)
  | opInitMut (v : T)
  | opGetMutWrite (w : T)
  | opTryGetMutWrite (w : T)
  | opTryGetRef
  | opTryGetMut
  | opGetRef
  | opGetMut
  | opPtr
  | opPtrMut
  deriving DecidableEq

/-- Small-step semantics of one LateInit operation in build mode d: some c2
when the operation completes normally leaving the cell in state c2, none
when it stops at a failed assertion or enters undefined behavior, so that
no successor state exists. -/
def LateInit.step {T : Type} (d : Bool) (op : LateOp T) (c : LateInit T) :
    Option (LateInit T) :=
  match op with
  | LateOp.opInit v =>
    match LateInit.late_init d c v with
    | Outcome.ok (c2, _) => some c2
    | _ => none
  | LateOp.opInitMut v =>
    match LateInit.late_init_mut d c v with
    | Outcome.ok (c2, _) => some c2
    | _ => none
  | LateOp.opGetMutWrite w =>
    match LateInit.late_get_mut_write d c w with
    | Outcome.ok c2 => some c2
    | _ => none
  | LateOp.opTryGetMutWrite w => some (c.late_try_get_mut_write w)
  | LateOp.opTryGetRef => some c
  | LateOp.opTryGetMut => some c
  | LateOp.opGetRef =>
    match c.late_get_ref d with
    | Outcome.ok _ => some c
    | _ => none
  | LateOp.opGetMut =>
    match c.late_get_mut d with
    | Outcome.ok _ => some c
    | _ => none
  | LateOp.opPtr => some c
  | LateOp.opPtrMut => some c

/-- Claim C1: a LateInit constructed empty via new reports absent through
late_try_get_ref; one late_init call with v succeeds in either build mode
and the resulting cell reports present: late_try_get_ref returns some v and
the dereference operator returns v. -/
theorem c1_new_then_init_reports_value (T : Type) (v : T) (d : Bool) :
    (LateInit.new : LateInit T).late_try_get_ref = none ∧
    LateInit.late_init d (LateInit.new : LateInit T) v =
      Outcome.ok (LateInit.with_ v, []) ∧
    (LateInit.with_ v).late_try_get_ref = some v ∧
    LateInit.deref d (LateInit.with_ v) = Outcome.ok v :=
  ⟨rfl, rfl, rfl, rfl⟩

/-- Claim C2: two-tier read-before-write design of the checked cell. For
every state, the try accessors return some of the value exactly on a
present cell and the total answer none on an absent one, never failing,
while late_get_ref and late_get_mut on an absent cell reach
late_unexpected, the debug assertion followed by the unreachable hint, and
never produce an ok outcome. -/
theorem c2_two_tier_absence_handling (T : Type) (d : Bool) (c : LateInit T) :
    (∀ v : T, c.inner = some v →
      c.late_try_get_ref = some v ∧ c.late_try_get_mut = some v ∧
      LateInit.late_get_ref d c = Outcome.ok v ∧
      LateInit.late_get_mut d c = Outcome.ok v) ∧
    (c.inner = none →
      c.late_try_get_ref = none ∧ c.late_try_get_mut = none ∧
      LateInit.late_get_ref d c = LateInit.late_unexpected T d ∧
      LateInit.late_get_mut d c = LateInit.late_unexpected T d ∧
      (∀ r : T, LateInit.late_get_ref d c ≠ Outcome.ok r) ∧
      (∀ r : T, LateInit.late_get_mut d c ≠ Outcome.ok r)) := by
  obtain ⟨i⟩ := c
  cases i <;> cases d <;>
    simp [LateInit.late_try_get_ref, LateInit.late_try_get_mut,
      LateInit.late_get_ref, LateInit.late_get_mut, LateInit.late_inner,
      LateInit.late_inner_mut, LateInit.late_unexpected]

/-- Closed instance of the C2 theorem at concrete cells. -/
theorem c2_two_tier_absence_handling_witness :
    ((LateInit.with_ (5 : Int)).inner = some 5 ∧
     LateInit.late_get_ref true (LateInit.with_ (5 : Int)) = Outcome.ok 5) ∧
    ((LateInit.new : LateInit Int).inner = none ∧
     LateInit.late_get_ref true (LateInit.new : LateInit Int) =
       LateInit.late_unexpected Int true) :=
  ⟨⟨rfl, ((c2_two_tier_absence_handling Int true (LateInit.with_ 5)).1
      5 rfl).2.2.1⟩,
   ⟨rfl, ((c2_two_tier_absence_handling Int true LateInit.new).2
      rfl).2.2.1⟩⟩

/-- Claim C3: state-machine invariant of the checked cell. Whenever an
operation completes normally, a present cell stays present, and the only
operations that take an absent cell to a present one are late_init and
late_init_mut. The presence tag and the storage are one Option container
in the source, so the tag agrees with the storage by construction. -/
theorem c3_state_machine_invariant (T : Type) (d : Bool) (op : LateOp T)
    (c c2 : LateInit T) (h : LateInit.step d op c = some c2) :
    (c.isPresent = true → c2.isPresent = true) ∧
    (c.isPresent = false → c2.isPresent = true →
      ∃ v : T, op = LateOp.opInit v ∨ op = LateOp.opInitMut v) := by
  obtain ⟨i⟩ := c
  cases op <;> cases i <;> cases d <;>
    simp_all [LateInit.step, LateInit.late_init, LateInit.late_init_mut,
      LateInit.late_init_into, LateInit.late_inner_mut, LateInit.late_inner,
      LateInit.late_get_mut_write, LateInit.late_try_get_mut,
      LateInit.late_try_get_mut_write, LateInit.late_get_ref,
      LateInit.late_get_mut, LateInit.late_try_get_ref,
      LateInit.late_unexpected, LateInit.isPresent] <;>
    (subst h; rfl)

/-- Closed instance of the C3 theorem at a concrete transition. -/
theorem c3_state_machine_invariant_witness :
    LateInit.step true (LateOp.opInit (3 : Int)) LateInit.new =
      some (LateInit.with_ 3) ∧
    ((LateInit.new : LateInit Int).isPresent = false →
      (LateInit.with_ (3 : Int)).isPresent = true →
      ∃ v : Int, LateOp.opInit (3 : Int) = LateOp.opInit v ∨
        LateOp.opInit (3 : Int) = LateOp.opInitMut v) :=
  ⟨rfl, (c3_state_machine_invariant Int true (LateOp.opInit 3) LateInit.new
    (LateInit.with_ 3) rfl).2⟩

/-- Claim C4: calling late_init or late_init_mut on an already present
checked cell in a build with debug assertions enabled stops at the failed
assertion. -/
theorem c4_double_init_debug_asserts (T : Type) (c : LateInit T) (v : T)
    (h : c.isPresent = true) :
    LateInit.late_init true c v = Outcome.assertFail ∧
    LateInit.late_init_mut true c v = Outcome.assertFail := by
  obtain ⟨i⟩ := c
  cases i <;>
    simp_all [LateInit.late_init, LateInit.late_init_mut,
      LateInit.late_init_into, LateInit.late_inner_mut, LateInit.isPresent,
      LateInit.late_try_get_ref, LateInit.late_inner]

/-- Closed instance of the C4 theorem at a concrete present cell. -/
theorem c4_double_init_debug_asserts_witness :
    (LateInit.with_ (7 : Int)).isPresent = true ∧
    LateInit.late_init true (LateInit.with_ (7 : Int)) 9 =
      Outcome.assertFail :=
  ⟨rfl, (c4_double_init_debug_asserts Int (LateInit.with_ 7) 9 rfl).1⟩

/-- Claim C5: a LateInit constructed via with is present from the first
instant: late_try_get_ref immediately returns some v with no late_init
call needed. -/
theorem c5_with_present_immediately (T : Type) (v : T) :
    (LateInit.with_ v).isPresent = true ∧
    (LateInit.with_ v).late_try_get_ref = some v :=
  ⟨rfl, rfl⟩

/-- Claim C6: on the unchecked cell, late_init with v followed by
late_get_ref or dereference returns exactly v, likewise late_init_mut, and
an initializing write over a previously held value overwrites the storage
while dropping nothing: the list of values whose teardown runs is empty,
so the previous value leaks. -/
theorem c6_unchecked_init_then_read (T : Type) (c : LateInitUnchecked T)
    (v : T) :
    (c.late_init v).1.late_get_ref = some v ∧
    (c.late_init v).1.deref = some v ∧
    (c.late_init_mut v).1.late_get_ref = some v ∧
    (c.late_init v).2 = [] ∧
    (∀ prev : T, (LateInitUnchecked.with_ prev).late_init v =
      (LateInitUnchecked.with_ v, [])) :=
  ⟨rfl, rfl, rfl, rfl, fun _ => rfl⟩

/-- Claim C7: an unchecked cell constructed via with immediately yields v
from every accessor and from the dereference operator, without any
late_init call. -/
theorem c7_unchecked_with_all_accessors (T : Type) (v : T) :
    (LateInitUnchecked.with_ v).late_ptr = RawPtr.toStorage (some v) ∧
    (LateInitUnchecked.with_ v).late_ptr_mut = RawPtr.toStorage (some v) ∧
    (LateInitUnchecked.with_ v).late_get_ref = some v ∧
    (LateInitUnchecked.with_ v).late_get_mut = some v ∧
    (LateInitUnchecked.with_ v).deref = some v ∧
    (LateInitUnchecked.with_ v).derefMut = some v :=
  ⟨rfl, rfl, rfl, rfl, rfl, rfl⟩

/-- Claim C8: for every checked cell state, late_ptr and late_ptr_mut
return the address of the stored value when present and the null pointer
when absent. -/
theorem c8_checked_ptr_null_when_absent (T : Type) (c : LateInit T) :
    (∀ v : T, c.inner = some v →
      c.late_ptr = RawPtr.toStorage (some v) ∧
      c.late_ptr_mut = RawPtr.toStorage (some v)) ∧
    (c.inner = none →
      c.late_ptr = RawPtr.null ∧ c.late_ptr_mut = RawPtr.null) := by
  obtain ⟨i⟩ := c
  cases i <;>
    simp [LateInit.late_ptr, LateInit.late_ptr_mut, LateInit.late_inner]

/-- Closed instance of the C8 theorem at concrete cells. -/
theorem c8_checked_ptr_null_when_absent_witness :
    ((LateInit.with_ (4 : Int)).inner = some 4 ∧
     (LateInit.with_ (4 : Int)).late_ptr = RawPtr.toStorage (some 4)) ∧
    ((LateInit.new : LateInit Int).inner = none ∧
     (LateInit.new : LateInit Int).late_ptr = RawPtr.null) :=
  ⟨⟨rfl, ((c8_checked_ptr_null_when_absent Int (LateInit.with_ 4)).1
      4 rfl).1⟩,
   ⟨rfl, ((c8_checked_ptr_null_when_absent Int LateInit.new).2 rfl).1⟩⟩

/-- Claim C9: on either cell, after a successful write the mutable and
immutable accessors alias the same storage: writing w through late_get_mut
on an initialized cell and then reading through late_get_ref returns w. -/
theorem c9_mut_ref_aliases_storage (T : Type) (d : Bool)
    (cu : LateInitUnchecked T) (cc : LateInit T) (w : T)
    (hu : cu.inner.isSome = true) (hc : cc.isPresent = true) :
    (∃ cu2 : LateInitUnchecked T, cu.late_get_mut_write w = some cu2 ∧
      cu2.late_get_ref = some w) ∧
    (∃ cc2 : LateInit T,
      LateInit.late_get_mut_write d cc w = Outcome.ok cc2 ∧
      LateInit.late_get_ref d cc2 = Outcome.ok w) := by
  obtain ⟨i⟩ := cu
  obtain ⟨j⟩ := cc
  cases i with
  | none => simp at hu
  | some a =>
    cases j with
    | none =>
      simp [LateInit.isPresent, LateInit.late_try_get_ref,
        LateInit.late_inner] at hc
    | some b =>
      exact ⟨⟨{ inner := some w }, rfl, rfl⟩,
        ⟨{ inner := some w }, rfl, rfl⟩⟩

/-- Closed instance of the C9 theorem at concrete initialized cells. -/
theorem c9_mut_ref_aliases_storage_witness :
    ((LateInitUnchecked.with_ (1 : Int)).inner.isSome = true ∧
     (LateInit.with_ (2 : Int)).isPresent = true) ∧
    ((∃ cu2 : LateInitUnchecked Int,
        (LateInitUnchecked.with_ (1 : Int)).late_get_mut_write 8 = some cu2 ∧
        cu2.late_get_ref = some 8) ∧
     (∃ cc2 : LateInit Int,
        LateInit.late_get_mut_write false (LateInit.with_ (2 : Int)) 8 =
          Outcome.ok cc2 ∧
        LateInit.late_get_ref false cc2 = Outcome.ok 8)) :=
  ⟨⟨rfl, rfl⟩, c9_mut_ref_aliases_storage Int false
    (LateInitUnchecked.with_ 1) (LateInit.with_ 2) 8 rfl rfl⟩

/-- Claim C10: in a release build, late_init on an already present checked
cell replaces the contents, subsequent reads return the new value, and the
previous value is dropped because the Option container is overwritten by
assignment; the unchecked cell by contrast drops nothing on overwrite. -/
theorem c10_release_double_init_drops_previous (T : Type) (old v : T) :
    LateInit.late_init false (LateInit.with_ old) v =
      Outcome.ok (LateInit.with_ v, [old]) ∧
    LateInit.late_init_mut false (LateInit.with_ old) v =
      Outcome.ok (LateInit.with_ v, [old]) ∧
    (LateInit.with_ v).late_try_get_ref = some v ∧
    LateInit.deref false (LateInit.with_ v) = Outcome.ok v ∧
    (LateInitUnchecked.late_init (LateInitUnchecked.with_ old) v).2 = [] :=
  ⟨rfl, rfl, rfl, rfl, rfl⟩
